import Mathlib

/-!
Verification development for the SecureComm store-and-forward messaging
server (`server/server.js`) and the mobile client's message service
(`src/services/messageService.ts`).

The server keeps a MongoDB collection `messages` with a unique index on
`(senderUid, clientMessageId)`, a TTL index on `serverTimestamp` restricted
to `status = 'pending_delivery'`, and an in-memory map
`authenticatedWsClients : uid -> Set<WebSocket>`.  The embedding below
models the ledger as a list of documents, the registry as a list of
`(socket id, uid)` pairs, and each HTTP/WebSocket handler as a pure
function from server state (plus the request) to a new state and the
replies sent.
-/

namespace SecureComm

/-- A document of the `users` collection, as created by
`POST /auth/verify-token` in `server/server.js`: `uid`, `socialNumber`,
`publicKey`, `sessionToken`, `logoutTimeout` (hours, `0` = never) and
`lastActive` (here: milliseconds since epoch, matching `Date.now()`). -/
structure User where
  uid : String
  email : String
  socialNumber : String
  publicKey : String
  sessionToken : String
  logoutTimeout : Nat
  lastActive : Nat
  deriving Repr, DecidableEq

/-- A document of the `messages` collection: the `messageToStore` object
built in the WebSocket `'message'` handler of `server/server.js`
(lines 479-490). `serverTimestamp` is milliseconds since epoch. -/
structure Msg where
  clientMessageId : String
  senderUid : String
  recipientUid : String
  ciphertext : String
  nonce : String
  senderPublicKey : String
  isAudio : Bool
  originalTimestamp : String
  serverTimestamp : Nat
  status : String
  deriving Repr, DecidableEq

/-- One WebSocket connection: its identity `sid`, the `ws.uid` attribute
set by a successful `register` (absent before registration), and whether
`ws.readyState === WebSocket.OPEN`. -/
structure Conn where
  sid : Nat
  wsUid : Option String
  isOpen : Bool
  deriving Repr, DecidableEq

/-- Server state: the `users` and `messages` collections, the
`authenticatedWsClients` map (flattened to `(sid, uid)` pairs: the pair
`(s, u)` is present exactly when socket `s` is in the set stored under key
`u`), and the live sockets. -/
structure ServerState where
  users : List User
  msgs : List Msg
  clients : List (Nat × String)
  conns : List Conn
  deriving Repr, DecidableEq

/-- The fields of an incoming `{type: 'message', ...}` WebSocket payload.
Fields checked for presence by the handler are `Option`-valued (`none`
models a missing/falsy field). -/
structure InMsg where
  senderUid : Option String
  recipientUid : Option String
  ciphertext : Option String
  nonce : Option String
  senderPublicKey : Option String
  clientMessageId : Option String
  timestamp : Option String
  isAudio : Bool
  deriving Repr, DecidableEq

/-- A JSON reply sent over a WebSocket by the server: `{type:'registered'}`,
`{type:'error', message}` or `{type:'message', ...storedMessage}`. -/
inductive WsReply where
  | registered
  | errMsg (message : String)
  | push (m : Msg)
  deriving Repr, DecidableEq

/-- Whether a reply is a `type: 'error'` message. -/
def WsReply.isErrorReply : WsReply → Bool
  | .errMsg _ => true
  | _ => false

/-- An observable action of a handler: `ws.send` to a given socket, or
`ws.terminate()` of a given socket. -/
inductive WsEvent where
  | send (sid : Nat) (r : WsReply)
  | terminate (sid : Nat)
  deriving Repr, DecidableEq

/-- Whether the `messages` collection already holds a document with the
given `(senderUid, clientMessageId)` key: the uniqueness predicate of the
index created at `server/server.js` lines 46-49. -/
def hasDupKey (ledger : List Msg) (s c : String) : Bool :=
  ledger.any (fun e => e.senderUid == s && e.clientMessageId == c)

/-- `msgsColl.insertOne` under the unique `(senderUid, clientMessageId)`
index: the insert succeeds and appends the document, or raises the
duplicate-key error (Mongo code 11000) and leaves the collection
unchanged. -/
def insertOne (ledger : List Msg) (m : Msg) : Except Unit (List Msg) :=
  if hasDupKey ledger m.senderUid m.clientMessageId then .error ()
  else .ok (ledger ++ [m])

/-- Number of ledger documents carrying the key `(s, c)`. -/
def countKey (ledger : List Msg) (s c : String) : Nat :=
  (ledger.filter (fun e => e.senderUid == s && e.clientMessageId == c)).length

/-- The `ws.uid` attribute of socket `sid`, when the socket exists and has
registered. -/
def connUidAt (conns : List Conn) (sid : Nat) : Option String :=
  (conns.find? (fun c => c.sid == sid)).bind (fun c => c.wsUid)

/-- Whether socket `sid` exists and has `readyState === WebSocket.OPEN`. -/
def connIsOpen (conns : List Conn) (sid : Nat) : Bool :=
  match conns.find? (fun c => c.sid == sid) with
  | some c => c.isOpen
  | none => false

/-- The presence check of the `'message'` handler (`server/server.js`
lines 456-463): any of the six required fields missing makes the payload
malformed. -/
def malformedPayload (m : InMsg) : Bool :=
  m.recipientUid.isNone || m.ciphertext.isNone || m.nonce.isNone ||
  m.senderPublicKey.isNone || m.clientMessageId.isNone || m.timestamp.isNone

/-- The `messageToStore` document built at `server/server.js` lines
479-490: `senderUid` is the authenticated `ws.uid`, `serverTimestamp` is
assigned at ingestion, and `status` starts as `'pending_delivery'`. -/
def storedOfInMsg (u : String) (m : InMsg) (now : Nat) : Msg :=
  { clientMessageId := m.clientMessageId.getD ""
    senderUid := u
    recipientUid := m.recipientUid.getD ""
    ciphertext := m.ciphertext.getD ""
    nonce := m.nonce.getD ""
    senderPublicKey := m.senderPublicKey.getD ""
    isAudio := m.isAudio
    originalTimestamp := m.timestamp.getD ""
    serverTimestamp := now
    status := "pending_delivery" }

/-- The real-time fan-out of `server/server.js` lines 498-512: for every
socket in `authenticatedWsClients.get(recipientUid)` whose `readyState`
is `OPEN`, send `{type:'message', ...messageToStore}`. -/
def livePushEvents (st : ServerState) (stored : Msg) : List WsEvent :=
  (((st.clients.filter (fun p => p.2 == stored.recipientUid)).map Prod.fst).filter
    (fun s => connIsOpen st.conns s)).map
    (fun s => WsEvent.send s (.push stored))

/-- The WebSocket `'message'` handler (`server/server.js` lines 441-537):
reject unregistered sockets, malformed payloads and sender-uid spoofing;
otherwise insert under the unique key, replying with the duplicate notice
on key collision and fanning out to the recipient's live sockets on
success.  The sender receives no reply on success. -/
def handleWsMessage (st : ServerState) (sid : Nat) (m : InMsg) (now : Nat) :
    ServerState × List WsEvent :=
  match connUidAt st.conns sid with
  | none =>
      (st, [.send sid (.errMsg "Client not registered. Send register message first."),
            .terminate sid])
  | some u =>
      if malformedPayload m then
        (st, [.send sid (.errMsg "Malformed message payload.")])
      else if m.senderUid ≠ some u then
        (st, [.send sid (.errMsg "Sender UID mismatch.")])
      else
        let stored := storedOfInMsg u m now
        match insertOne st.msgs stored with
        | .error _ =>
            (st, [.send sid (.errMsg "Duplicate message ID. Message likely already processed.")])
        | .ok newMsgs => ({ st with msgs := newMsgs }, livePushEvents st stored)

/-- The WebSocket `'register'` handler (`server/server.js` lines 411-439):
look up the user by `uid` and `sessionToken`; on a match set `ws.uid`, add
the socket to `authenticatedWsClients.get(uid)` (a `Set`, so re-adding is
a no-op) and reply `{type:'registered'}`; otherwise reply an error and
terminate.  The handler performs no inactivity / `logoutTimeout` check. -/
def handleRegister (st : ServerState) (sid : Nat) (uid token : String) :
    ServerState × List WsEvent :=
  match st.users.find? (fun u => u.uid == uid && u.sessionToken == token) with
  | some _ =>
      let conns := st.conns.map (fun c => if c.sid == sid then { c with wsUid := some uid } else c)
      let clients := if (sid, uid) ∈ st.clients then st.clients else st.clients ++ [(sid, uid)]
      ({ st with conns := conns, clients := clients }, [.send sid .registered])
  | none =>
      (st, [.send sid (.errMsg "Authentication failed."), .terminate sid])

/-- The `ws.on('close')` handler (`server/server.js` lines 540-553): if the
socket had registered as `ws.uid = u`, delete it from the set stored under
`u`; the socket itself is gone either way. -/
def handleClose (st : ServerState) (sid : Nat) : ServerState :=
  let clients :=
    match connUidAt st.conns sid with
    | some u => st.clients.filter (fun p => !(p.1 == sid && p.2 == u))
    | none => st.clients
  { st with clients := clients, conns := st.conns.filter (fun c => c.sid ≠ sid) }

/-- Result of `POST /messages/ack`. -/
inductive AckResult where
  | badRequest
  | unauthorized
  | ok (acknowledgedCount : Nat)
  deriving Repr, DecidableEq

/-- The deletion filter of `POST /messages/ack` (`server/server.js` lines
373-376): `{recipientUid: uid, clientMessageId: {$in: messageIds}}`.  It
constrains neither `senderUid` nor `status`. -/
def ackMatches (uid : String) (messageIds : List String) (e : Msg) : Bool :=
  e.recipientUid == uid && decide (e.clientMessageId ∈ messageIds)

/-- `POST /messages/ack` (`server/server.js` lines 352-383): validate the
body, authenticate, then `deleteMany` the matching documents and reply
with `deletedCount`. -/
def handleAck (st : ServerState) (uid token : String) (messageIds : List String) :
    ServerState × AckResult :=
  if uid = "" ∨ token = "" ∨ messageIds = [] then (st, .badRequest)
  else
    match st.users.find? (fun u => u.uid == uid && u.sessionToken == token) with
    | none => (st, .unauthorized)
    | some _ =>
        ({ st with msgs := st.msgs.filter (fun e => !(ackMatches uid messageIds e)) },
         .ok (st.msgs.filter (ackMatches uid messageIds)).length)

/-- The query filter of `GET /messages/offline` (`server/server.js` lines
340-343): documents for the recipient with `status: 'pending_delivery'`,
before sorting. -/
def pendingRaw (st : ServerState) (uid : String) : List Msg :=
  st.msgs.filter (fun e => e.recipientUid == uid && e.status == "pending_delivery")

/-- Comparison by `serverTimestamp`, the sort key of
`.sort({serverTimestamp: 1})`. -/
def tsLe (a b : Msg) : Prop := a.serverTimestamp ≤ b.serverTimestamp

instance : DecidableRel tsLe := fun a b => Nat.decLe a.serverTimestamp b.serverTimestamp

instance : IsTotal Msg tsLe := ⟨fun a b => Nat.le_total a.serverTimestamp b.serverTimestamp⟩

instance : IsTrans Msg tsLe := ⟨fun _ _ _ => Nat.le_trans⟩

/-- The ledger read of `GET /messages/offline`: pending documents for the
recipient, ascending by `serverTimestamp` — the spec's
`pendingFor(recipientUid)`. -/
def pendingFor (st : ServerState) (uid : String) : List Msg :=
  List.insertionSort tsLe (pendingRaw st uid)

/-- Result of `GET /messages/offline`. -/
inductive FetchResult where
  | badRequest
  | unauthorized
  | ok (messages : List Msg)
  deriving Repr, DecidableEq

/-- `GET /messages/offline` (`server/server.js` lines 329-349): require
`uid` and token, authenticate, then return the sorted pending documents. -/
def getOfflineMessages (st : ServerState) (uid token : String) : FetchResult :=
  if token = "" ∨ uid = "" then .badRequest
  else
    match st.users.find? (fun u => u.uid == uid && u.sessionToken == token) with
    | none => .unauthorized
    | some _ => .ok (pendingFor st uid)

/-- Result of `POST /auth/validate-token`. -/
inductive ValidateResult where
  | badRequest
  | invalidSession
  | expiredByInactivity
  | ok
  deriving Repr, DecidableEq

/-- `POST /auth/validate-token` (`server/server.js` lines 154-172): find
the user by `(uid, sessionToken)`; with `logoutTimeout > 0` and more than
`logoutTimeout` hours (`36e5` ms per hour) since `lastActive`, reply 401
session-expired; otherwise refresh `lastActive` and succeed. -/
def validateToken (st : ServerState) (uid token : String) (now : Nat) :
    ServerState × ValidateResult :=
  if uid = "" ∨ token = "" then (st, .badRequest)
  else
    match st.users.find? (fun u => u.uid == uid && u.sessionToken == token) with
    | none => (st, .invalidSession)
    | some u =>
        if 0 < u.logoutTimeout ∧ u.logoutTimeout * 3600000 < now - u.lastActive then
          (st, .expiredByInactivity)
        else
          ({ st with users :=
              st.users.map (fun v => if v.uid == uid then { v with lastActive := now } else v) },
           .ok)

/-- Whether the TTL index `message_ttl_pending_delivery`
(`server/server.js` lines 53-60) removes document `e` at time `now`:
only `pending_delivery` documents expire, `ttlMs` past their
`serverTimestamp`. -/
def expiredPending (now ttlMs : Nat) (e : Msg) : Bool :=
  e.status == "pending_delivery" && decide (e.serverTimestamp + ttlMs ≤ now)

/-- The TTL sweep: delete the expired pending documents and report how
many were removed — the spec's `sweepExpired()`. -/
def sweepExpired (st : ServerState) (now ttlMs : Nat) : ServerState × Nat :=
  ({ st with msgs := st.msgs.filter (fun e => !(expiredPending now ttlMs e)) },
   (st.msgs.filter (expiredPending now ttlMs)).length)

/-- The operations that can change (or read) the server state, for stating
frame properties over the whole interface. -/
inductive ServerOp where
  | register (sid : Nat) (uid token : String)
  | wsMessage (sid : Nat) (m : InMsg) (now : Nat)
  | close (sid : Nat)
  | ack (uid token : String) (messageIds : List String)
  | offline (uid token : String)
  | validate (uid token : String) (now : Nat)
  | sweep (now ttlMs : Nat)
  deriving Repr, DecidableEq

/-- State transition of each operation. -/
def step (st : ServerState) : ServerOp → ServerState
  | .register sid uid token => (handleRegister st sid uid token).1
  | .wsMessage sid m now => (handleWsMessage st sid m now).1
  | .close sid => handleClose st sid
  | .ack uid token ids => (handleAck st uid token ids).1
  | .offline _ _ => st
  | .validate uid token now => (validateToken st uid token now).1
  | .sweep now ttlMs => (sweepExpired st now ttlMs).1

/-- The operations entitled to remove a pending envelope `e`: an
acknowledgement by `e`'s recipient naming `e`'s `clientMessageId`, or a
TTL sweep past `e`'s expiry time. -/
def ServerOp.mayRemove : ServerOp → Msg → Prop
  | .ack uid _ ids, e => uid = e.recipientUid ∧ e.clientMessageId ∈ ids
  | .sweep now ttlMs, e => e.serverTimestamp + ttlMs ≤ now
  | _, _ => False

instance : ∀ (op : ServerOp) (e : Msg), Decidable (op.mayRemove e) := by
  intro op e
  cases op <;> simp only [ServerOp.mayRemove] <;> infer_instance

/-- The client's `ws.onmessage` dispatch in
`src/services/messageService.ts` (lines 111-142): a reply of type
`registered` triggers `fetchAndProcessOfflineMessages()` — a separate
HTTP `GET /messages/offline` — a pushed message is stored and scheduled
for acknowledgement, and a `type:'error'` reply is surfaced as an error
event. -/
inductive ClientAction where
  | fetchOffline
  | storeAndAck (m : Msg)
  | surfaceError (message : String)
  deriving Repr, DecidableEq

/-- The dispatch function itself. -/
def clientOnServerReply : WsReply → ClientAction
  | .registered => .fetchOffline
  | .push m => .storeAndAck m
  | .errMsg s => .surfaceError s

/-! ### Concrete fixtures used by witnesses and counterexamples -/

/-- A registered user `alice`. -/
def userAlice : User :=
  { uid := "alice", email := "alice@example.com", socialNumber := "111111111",
    publicKey := "pkA", sessionToken := "tokA", logoutTimeout := 48, lastActive := 0 }

/-- A registered user `bob` whose inactivity window is 24 hours and whose
last activity was at time 0. -/
def userBob : User :=
  { uid := "bob", email := "bob@example.com", socialNumber := "222222222",
    publicKey := "pkB", sessionToken := "tokB", logoutTimeout := 24, lastActive := 0 }

/-- A stored envelope from `alice` to `bob` with key `("alice", "m1")`. -/
def msgA1 : Msg :=
  { clientMessageId := "m1", senderUid := "alice", recipientUid := "bob",
    ciphertext := "ct1", nonce := "n1", senderPublicKey := "pkA", isAudio := false,
    originalTimestamp := "2026-01-01T00:00:00Z", serverTimestamp := 1000,
    status := "pending_delivery" }

/-- A client retry of `msgA1`: same `(senderUid, clientMessageId)` key,
re-encrypted and re-timestamped. -/
def msgA1retry : Msg :=
  { msgA1 with ciphertext := "ct1-retry", nonce := "n1-retry", serverTimestamp := 2000 }

/-- A second pending envelope to `bob`, sent by a third user `carol` and
reusing the client-generated id `"m1"` — permitted by the unique index,
whose key is scoped per sender. -/
def msgC1 : Msg :=
  { msgA1 with
    senderUid := "carol"
    ciphertext := "ct9"
    senderPublicKey := "pkC"
    serverTimestamp := 1500 }

/-- Three envelopes from `alice` to `bob` with ascending
`serverTimestamp`s 1000, 2000, 3000. -/
def msgT1 : Msg := { msgA1 with clientMessageId := "t1", serverTimestamp := 1000 }

/-- Second of the three ordered envelopes. -/
def msgT2 : Msg := { msgA1 with clientMessageId := "t2", serverTimestamp := 2000 }

/-- Third of the three ordered envelopes. -/
def msgT3 : Msg := { msgA1 with clientMessageId := "t3", serverTimestamp := 3000 }

/-- The `InMsg` payload whose ingestion stores `msgA1`. -/
def inMsgA1 : InMsg :=
  { senderUid := some "alice", recipientUid := some "bob", ciphertext := some "ct1",
    nonce := some "n1", senderPublicKey := some "pkA", clientMessageId := some "m1",
    timestamp := some "2026-01-01T00:00:00Z", isAudio := false }

/-- Alice's live registered socket. -/
def connAlice : Conn := { sid := 1, wsUid := some "alice", isOpen := true }

/-- A freshly accepted, not yet registered socket. -/
def connFresh : Conn := { sid := 2, wsUid := none, isOpen := true }

/-- Bob's first live registered socket (multi-device). -/
def connBob1 : Conn := { sid := 10, wsUid := some "bob", isOpen := true }

/-- Bob's second live registered socket (multi-device). -/
def connBob2 : Conn := { sid := 11, wsUid := some "bob", isOpen := true }

/-- A state in which alice is registered on socket 1 and the ledger is
empty. -/
def stSend : ServerState :=
  { users := [userAlice, userBob], msgs := [], clients := [(1, "alice")], conns := [connAlice] }

/-- A state holding one pending envelope for bob and no connections. -/
def stPending : ServerState :=
  { users := [userAlice, userBob], msgs := [msgA1], clients := [], conns := [] }

/-- A state in which alice is registered on socket 1 and her envelope
`msgA1` is already in the ledger (a retry is about to arrive). -/
def stDup : ServerState :=
  { users := [userAlice, userBob], msgs := [msgA1], clients := [(1, "alice")], conns := [connAlice] }

/-- A state in which bob — inactive since time 0 — connects on the fresh
socket 2 while one envelope is pending for him. -/
def stBobConnect : ServerState :=
  { users := [userAlice, userBob], msgs := [msgA1], clients := [], conns := [connFresh] }

/-- A state whose ledger holds the three ordered envelopes, stored in the
interleaved arrival order `t2, t3, t1`. -/
def stThree : ServerState :=
  { users := [userAlice, userBob], msgs := [msgT2, msgT3, msgT1], clients := [], conns := [] }

/-- A state in which bob is registered on two live sockets (10 and 11) and
alice on socket 1. -/
def stTwo : ServerState :=
  { users := [userAlice, userBob], msgs := [],
    clients := [(10, "bob"), (11, "bob"), (1, "alice")],
    conns := [connAlice, connBob1, connBob2] }

/-- A state with two pending envelopes for bob carrying the same
`clientMessageId "m1"` from two different senders. -/
def stTwoSenders : ServerState :=
  { users := [userAlice, userBob], msgs := [msgA1, msgC1], clients := [], conns := [] }

/-! ### Helper lemmas -/

/-- A successful `insertOne` appends exactly the new document. -/
theorem insertOne_ok {L L' : List Msg} {m : Msg} (h : insertOne L m = .ok L') :
    L' = L ++ [m] := by
  unfold insertOne at h
  split at h
  · exact absurd h (by simp)
  · simpa using h.symm

/-- `insertOne` leaves the collection either unchanged (duplicate key) or
extended by the new document. -/
theorem handleWsMessage_msgs_sub {st : ServerState} {sid : Nat} {m : InMsg} {now : Nat}
    {e : Msg} (he : e ∈ st.msgs) : e ∈ (handleWsMessage st sid m now).1.msgs := by
  unfold handleWsMessage
  split
  · exact he
  · split
    · exact he
    · split
      · exact he
      · dsimp only
        split
        · exact he
        · next h => simp only [insertOne_ok h, List.mem_append]; exact Or.inl he

/-- Membership in `pendingFor`: exactly the documents of the `messages`
collection addressed to the recipient and still `pending_delivery`. -/
theorem mem_pendingFor {st : ServerState} {r : String} {e : Msg} :
    e ∈ pendingFor st r ↔ e ∈ st.msgs ∧ e.recipientUid = r ∧ e.status = "pending_delivery" := by
  unfold pendingFor pendingRaw
  rw [List.Perm.mem_iff (List.perm_insertionSort tsLe _)]
  simp [List.mem_filter, and_assoc]

/-- Claim C1: appending the same `(senderUid, clientMessageId)` pair twice
yields exactly one ledger entry: when the key is absent the insert
succeeds and exactly one document with the key is present afterwards, and
any later insert with the same key is rejected with the duplicate-key
error, leaving the collection unchanged. -/
theorem append_idempotence (L : List Msg) (m m' : Msg)
    (h : hasDupKey L m.senderUid m.clientMessageId = false)
    (hs : m'.senderUid = m.senderUid) (hc : m'.clientMessageId = m.clientMessageId) :
    insertOne L m = .ok (L ++ [m]) ∧
    countKey (L ++ [m]) m.senderUid m.clientMessageId = 1 ∧
    insertOne (L ++ [m]) m' = .error () := by
  have hall : ∀ e ∈ L, ¬(e.senderUid == m.senderUid && e.clientMessageId == m.clientMessageId) = true := by
    simpa [hasDupKey, List.any_eq_false] using h
  refine ⟨by simp [insertOne, h], ?_, ?_⟩
  · unfold countKey
    rw [List.filter_append, List.filter_eq_nil_iff.mpr hall]
    simp
  · have hkey : hasDupKey (L ++ [m]) m'.senderUid m'.clientMessageId = true := by
      simp [hasDupKey, hs, hc]
    simp [insertOne, hkey]

/-- Witness for `append_idempotence` at a concrete ledger and envelope. -/
theorem append_idempotence_witness :
    insertOne [] msgA1 = .ok ([] ++ [msgA1]) ∧
    countKey ([] ++ [msgA1]) msgA1.senderUid msgA1.clientMessageId = 1 ∧
    insertOne ([] ++ [msgA1]) msgA1retry = .error () :=
  append_idempotence [] msgA1 msgA1retry (by decide) (by decide) (by decide)

/-- On the send path with a registered sender, a well-formed payload, a
matching sender uid and a fresh `(senderUid, clientMessageId)` key, the
handler stores the envelope and fans it out to the recipient's live
sockets. -/
theorem handleWsMessage_fresh (st : ServerState) (sid : Nat) (m : InMsg) (now : Nat) (u : String)
    (hc : connUidAt st.conns sid = some u)
    (hm : malformedPayload m = false)
    (hs : m.senderUid = some u)
    (hd : hasDupKey st.msgs u (m.clientMessageId.getD "") = false) :
    handleWsMessage st sid m now =
      ({ st with msgs := st.msgs ++ [storedOfInMsg u m now] },
        livePushEvents st (storedOfInMsg u m now)) := by
  unfold handleWsMessage
  rw [hc]
  have hins : insertOne st.msgs (storedOfInMsg u m now) =
      .ok (st.msgs ++ [storedOfInMsg u m now]) := by
    simp [insertOne, storedOfInMsg, hd]
  simp [hm, hs, hins]

/-- On the send path with a duplicate `(senderUid, clientMessageId)` key,
the handler leaves the state unchanged and replies only with the
duplicate notice. -/
theorem handleWsMessage_dup (st : ServerState) (sid : Nat) (m : InMsg) (now : Nat) (u : String)
    (hc : connUidAt st.conns sid = some u)
    (hm : malformedPayload m = false)
    (hs : m.senderUid = some u)
    (hd : hasDupKey st.msgs u (m.clientMessageId.getD "") = true) :
    handleWsMessage st sid m now =
      (st, [.send sid (.errMsg "Duplicate message ID. Message likely already processed.")]) := by
  unfold handleWsMessage
  rw [hc]
  have hins : insertOne st.msgs (storedOfInMsg u m now) = .error () := by
    simp [insertOne, storedOfInMsg, hd]
  simp [hm, hs, hins]

/-- Registration never touches the `messages` collection. -/
theorem handleRegister_msgs (st : ServerState) (sid : Nat) (uid token : String) :
    (handleRegister st sid uid token).1.msgs = st.msgs := by
  unfold handleRegister
  split <;> rfl

/-- Token validation never touches the `messages` collection. -/
theorem validateToken_msgs (st : ServerState) (uid token : String) (now : Nat) :
    (validateToken st uid token now).1.msgs = st.msgs := by
  unfold validateToken
  split
  · rfl
  · split
    · rfl
    · split <;> rfl

/-- An acknowledgement keeps every document it does not match. -/
theorem handleAck_msgs_mem {st : ServerState} {uid token : String} {ids : List String}
    {e : Msg} (he : e ∈ st.msgs)
    (hnot : ¬(uid = e.recipientUid ∧ e.clientMessageId ∈ ids)) :
    e ∈ (handleAck st uid token ids).1.msgs := by
  unfold handleAck
  split
  · exact he
  · split
    · exact he
    · simp only [List.mem_filter]
      refine ⟨he, ?_⟩
      by_cases hr : e.recipientUid = uid
      · have hm : e.clientMessageId ∉ ids := fun hmem => hnot ⟨hr.symm, hmem⟩
        simp [ackMatches, hm]
      · simp [ackMatches, hr]

/-- The TTL sweep keeps every document that is not yet expired. -/
theorem sweepExpired_msgs_mem {st : ServerState} {now ttlMs : Nat} {e : Msg}
    (he : e ∈ st.msgs) (h : ¬(e.serverTimestamp + ttlMs ≤ now)) :
    e ∈ (sweepExpired st now ttlMs).1.msgs := by
  simp only [sweepExpired, List.mem_filter]
  exact ⟨he, by simp [expiredPending, h]⟩

/-- Claim C2: an envelope accepted by the send path is visible to
`pendingFor` from the moment the insert succeeds, and every server
operation other than an acknowledgement naming it (by its recipient) or a
TTL sweep past its expiry preserves its visibility — there is no
intermediate state in which an accepted, unacknowledged, unexpired
envelope is absent from `pendingFor`. -/
theorem pending_visibility :
    (∀ (st : ServerState) (sid : Nat) (m : InMsg) (now : Nat) (u : String),
      connUidAt st.conns sid = some u →
      malformedPayload m = false →
      m.senderUid = some u →
      hasDupKey st.msgs u (m.clientMessageId.getD "") = false →
      storedOfInMsg u m now ∈
        pendingFor (handleWsMessage st sid m now).1 (storedOfInMsg u m now).recipientUid) ∧
    (∀ (st : ServerState) (op : ServerOp) (e : Msg) (r : String),
      e ∈ pendingFor st r → ¬ op.mayRemove e → e ∈ pendingFor (step st op) r) := by
  constructor
  · intro st sid m now u hc hm hs hd
    rw [handleWsMessage_fresh st sid m now u hc hm hs hd, mem_pendingFor]
    exact ⟨by simp, rfl, rfl⟩
  · intro st op e r he hr
    rw [mem_pendingFor] at he
    obtain ⟨hmem, hrec, hstat⟩ := he
    cases op with
    | register sid uid token =>
        rw [mem_pendingFor, step, handleRegister_msgs]
        exact ⟨hmem, hrec, hstat⟩
    | wsMessage sid m now =>
        rw [mem_pendingFor]
        exact ⟨handleWsMessage_msgs_sub hmem, hrec, hstat⟩
    | close sid =>
        rw [mem_pendingFor]
        exact ⟨hmem, hrec, hstat⟩
    | ack uid token ids =>
        rw [mem_pendingFor]
        exact ⟨handleAck_msgs_mem hmem hr, hrec, hstat⟩
    | offline uid token =>
        rw [mem_pendingFor]
        exact ⟨hmem, hrec, hstat⟩
    | validate uid token now =>
        rw [mem_pendingFor, step, validateToken_msgs]
        exact ⟨hmem, hrec, hstat⟩
    | sweep now ttlMs =>
        rw [mem_pendingFor]
        exact ⟨sweepExpired_msgs_mem hmem hr, hrec, hstat⟩

/-- Witness for `pending_visibility`: a fresh send becomes visible, and a
socket close does not hide a pending envelope. -/
theorem pending_visibility_witness :
    storedOfInMsg "alice" inMsgA1 1000 ∈
      pendingFor (handleWsMessage stSend 1 inMsgA1 1000).1
        (storedOfInMsg "alice" inMsgA1 1000).recipientUid ∧
    msgA1 ∈ pendingFor (step stPending (.close 1)) "bob" :=
  ⟨pending_visibility.1 stSend 1 inMsgA1 1000 "alice" (by decide) (by decide) (by decide)
      (by decide),
   pending_visibility.2 stPending (.close 1) msgA1 "bob" (by decide) (by decide)⟩

/-- Claim C8: the real-time fan-out is a pure read of the registry — the
freshly stored envelope keeps status `pending_delivery`, stays in the
ledger and in `pendingFor`, and users, registry and sockets are unchanged;
the pushes are exactly the fan-out events. -/
theorem fanout_frame (st : ServerState) (sid : Nat) (m : InMsg) (now : Nat) (u : String)
    (hc : connUidAt st.conns sid = some u)
    (hm : malformedPayload m = false)
    (hs : m.senderUid = some u)
    (hd : hasDupKey st.msgs u (m.clientMessageId.getD "") = false) :
    (handleWsMessage st sid m now).1.msgs = st.msgs ++ [storedOfInMsg u m now] ∧
    (storedOfInMsg u m now).status = "pending_delivery" ∧
    (handleWsMessage st sid m now).1.users = st.users ∧
    (handleWsMessage st sid m now).1.clients = st.clients ∧
    (handleWsMessage st sid m now).1.conns = st.conns ∧
    (handleWsMessage st sid m now).2 = livePushEvents st (storedOfInMsg u m now) ∧
    storedOfInMsg u m now ∈
      pendingFor (handleWsMessage st sid m now).1 (storedOfInMsg u m now).recipientUid := by
  rw [handleWsMessage_fresh st sid m now u hc hm hs hd]
  refine ⟨rfl, rfl, rfl, rfl, rfl, rfl, ?_⟩
  rw [mem_pendingFor]
  exact ⟨by simp, rfl, rfl⟩

/-- Witness for `fanout_frame` at a concrete send. -/
theorem fanout_frame_witness :
    (handleWsMessage stSend 1 inMsgA1 1000).1.msgs =
      stSend.msgs ++ [storedOfInMsg "alice" inMsgA1 1000] ∧
    (storedOfInMsg "alice" inMsgA1 1000).status = "pending_delivery" ∧
    (handleWsMessage stSend 1 inMsgA1 1000).1.users = stSend.users ∧
    (handleWsMessage stSend 1 inMsgA1 1000).1.clients = stSend.clients ∧
    (handleWsMessage stSend 1 inMsgA1 1000).1.conns = stSend.conns ∧
    (handleWsMessage stSend 1 inMsgA1 1000).2 =
      livePushEvents stSend (storedOfInMsg "alice" inMsgA1 1000) ∧
    storedOfInMsg "alice" inMsgA1 1000 ∈
      pendingFor (handleWsMessage stSend 1 inMsgA1 1000).1
        (storedOfInMsg "alice" inMsgA1 1000).recipientUid :=
  fanout_frame stSend 1 inMsgA1 1000 "alice" (by decide) (by decide) (by decide) (by decide)

/-- Counterexample to Claim C3: bob's token matches, his
`logoutTimeout` is 24 hours, and 100 hours have elapsed since
`lastActive` — `POST /auth/validate-token` would reject the session as
expired at this very instant — yet the WebSocket registration handshake
succeeds with `{type:'registered'}` instead of being rejected with
Unauthorized. -/
theorem register_ignores_inactivity_cex :
    (handleRegister stBobConnect 2 "bob" "tokB").2 = [WsEvent.send 2 .registered] ∧
    (validateToken stBobConnect "bob" "tokB" 360000000).2 = .expiredByInactivity := by
  constructor
  · rfl
  · rfl

/-- Claim C3 (amended): the session-expiry-by-inactivity policy is
enforced only by `POST /auth/validate-token`, which rejects a matching
`(uid, sessionToken)` pair with a 401 when `logoutTimeout > 0` and more
than `logoutTimeout` hours have elapsed since `lastActive`; the WebSocket
registration handshake checks only that the pair matches and succeeds
regardless of inactivity. -/
theorem inactivity_expiry_paths (st : ServerState) (uid token : String) (now : Nat)
    (sid : Nat) (u : User)
    (hu : uid ≠ "") (ht : token ≠ "")
    (hfind : st.users.find? (fun v => v.uid == uid && v.sessionToken == token) = some u)
    (hlt : 0 < u.logoutTimeout)
    (hexp : u.logoutTimeout * 3600000 < now - u.lastActive) :
    (validateToken st uid token now).2 = .expiredByInactivity ∧
    (handleRegister st sid uid token).2 = [WsEvent.send sid .registered] := by
  constructor
  · unfold validateToken
    rw [if_neg (by simp [hu, ht]), hfind]
    simp [hlt, hexp]
  · unfold handleRegister
    rw [hfind]

/-- Witness for `inactivity_expiry_paths` at bob's expired-but-matching
session. -/
theorem inactivity_expiry_paths_witness :
    (validateToken stBobConnect "bob" "tokB" 360000000).2 = .expiredByInactivity ∧
    (handleRegister stBobConnect 2 "bob" "tokB").2 = [WsEvent.send 2 .registered] :=
  inactivity_expiry_paths stBobConnect "bob" "tokB" 360000000 2 userBob
    (by decide) (by decide) (by decide) (by decide) (by decide)

/-- Counterexample to Claim C4: on a duplicate resend of `msgA1` the
reply delivered to the sender is a `type:'error'` message — not a
non-error idempotent-duplicate notice — and the client's dispatch routes
it to its error path. -/
theorem duplicate_reply_is_error_cex :
    (handleWsMessage stDup 1 inMsgA1 2000).2 =
      [WsEvent.send 1
        (.errMsg "Duplicate message ID. Message likely already processed.")] ∧
    WsReply.isErrorReply
      (.errMsg "Duplicate message ID. Message likely already processed.") = true ∧
    clientOnServerReply
      (.errMsg "Duplicate message ID. Message likely already processed.") =
      .surfaceError "Duplicate message ID. Message likely already processed." := by
  refine ⟨?_, rfl, rfl⟩
  rfl

/-- Claim C4 (amended): a duplicate resend leaves the ledger and the
whole server state unchanged and keeps the connection open (no terminate
event), but the reply sent to the sender is a `type:'error'` message
carrying the duplicate notice — the protocol does not report it to the
sender as a success; the client surfaces it through its error path. -/
theorem duplicate_resend_reply (st : ServerState) (sid : Nat) (m : InMsg) (now : Nat)
    (u : String)
    (hc : connUidAt st.conns sid = some u)
    (hm : malformedPayload m = false)
    (hs : m.senderUid = some u)
    (hd : hasDupKey st.msgs u (m.clientMessageId.getD "") = true) :
    handleWsMessage st sid m now =
      (st, [.send sid (.errMsg "Duplicate message ID. Message likely already processed.")]) ∧
    WsReply.isErrorReply
      (.errMsg "Duplicate message ID. Message likely already processed.") = true ∧
    clientOnServerReply
      (.errMsg "Duplicate message ID. Message likely already processed.") =
      .surfaceError "Duplicate message ID. Message likely already processed." :=
  ⟨handleWsMessage_dup st sid m now u hc hm hs hd, rfl, rfl⟩

/-- Witness for `duplicate_resend_reply` at alice's concrete retry. -/
theorem duplicate_resend_reply_witness :
    handleWsMessage stDup 1 inMsgA1 2000 =
      (stDup,
        [.send 1 (.errMsg "Duplicate message ID. Message likely already processed.")]) ∧
    WsReply.isErrorReply
      (.errMsg "Duplicate message ID. Message likely already processed.") = true ∧
    clientOnServerReply
      (.errMsg "Duplicate message ID. Message likely already processed.") =
      .surfaceError "Duplicate message ID. Message likely already processed." :=
  duplicate_resend_reply stDup 1 inMsgA1 2000 "alice"
    (by decide) (by decide) (by decide) (by decide)

/-- Registration never touches the `users` collection. -/
theorem handleRegister_users (st : ServerState) (sid : Nat) (uid token : String) :
    (handleRegister st sid uid token).1.users = st.users := by
  unfold handleRegister
  split <;> rfl

/-- `pendingFor` depends only on the `messages` collection. -/
theorem pendingFor_congr_msgs {st st' : ServerState} (h : st'.msgs = st.msgs) (uid : String) :
    pendingFor st' uid = pendingFor st uid := by
  unfold pendingFor pendingRaw
  rw [h]

/-- Counterexample to Claim C5: bob registers while `msgA1` is pending
for him, the handshake succeeds — and the server sends only
`{type:'registered'}`: no pending envelope is pushed over the
connection by the registration path. -/
theorem register_no_push_cex :
    (handleRegister stBobConnect 2 "bob" "tokB").2 = [WsEvent.send 2 .registered] ∧
    pendingFor stBobConnect "bob" = [msgA1] ∧
    WsEvent.send 2 (.push msgA1) ∉ (handleRegister stBobConnect 2 "bob" "tokB").2 := by
  refine ⟨rfl, by decide, by decide⟩

/-- Claim C5 (amended): on registration success the server replies only
`{type:'registered'}` and pushes no envelope over the WebSocket; the
drain is pull-based — the client's handler for `registered` automatically
issues a separate HTTP `GET /messages/offline`, which returns exactly the
envelopes pending for the uid at registration time. -/
theorem register_pull_drain (st : ServerState) (sid : Nat) (uid token : String) (u : User)
    (hu : uid ≠ "") (ht : token ≠ "")
    (hfind : st.users.find? (fun v => v.uid == uid && v.sessionToken == token) = some u) :
    (handleRegister st sid uid token).2 = [WsEvent.send sid .registered] ∧
    (∀ e : Msg, WsEvent.send sid (.push e) ∉ (handleRegister st sid uid token).2) ∧
    clientOnServerReply .registered = .fetchOffline ∧
    getOfflineMessages (handleRegister st sid uid token).1 uid token =
      .ok (pendingFor st uid) := by
  have hreg : (handleRegister st sid uid token).2 = [WsEvent.send sid .registered] := by
    unfold handleRegister
    rw [hfind]
  refine ⟨hreg, ?_, rfl, ?_⟩
  · intro e
    rw [hreg]
    simp
  · unfold getOfflineMessages
    rw [if_neg (by simp [hu, ht]), handleRegister_users, hfind,
      pendingFor_congr_msgs (handleRegister_msgs st sid uid token) uid]

/-- Witness for `register_pull_drain` at bob's reconnection with one
pending envelope. -/
theorem register_pull_drain_witness :
    (handleRegister stBobConnect 2 "bob" "tokB").2 = [WsEvent.send 2 .registered] ∧
    WsEvent.send 2 (.push msgA1) ∉ (handleRegister stBobConnect 2 "bob" "tokB").2 ∧
    clientOnServerReply .registered = .fetchOffline ∧
    getOfflineMessages (handleRegister stBobConnect 2 "bob" "tokB").1 "bob" "tokB" =
      .ok (pendingFor stBobConnect "bob") := by
  have h := register_pull_drain stBobConnect 2 "bob" "tokB" userBob
    (by decide) (by decide) (by decide)
  exact ⟨h.1, h.2.1 msgA1, h.2.2.1, h.2.2.2⟩

/-- A successful acknowledgement deletes exactly the matching documents
and reports how many. -/
theorem handleAck_eq (st : ServerState) (uid token : String) (ids : List String) (u : User)
    (hu : uid ≠ "") (ht : token ≠ "") (hne : ids ≠ [])
    (hfind : st.users.find? (fun v => v.uid == uid && v.sessionToken == token) = some u) :
    handleAck st uid token ids =
      ({ st with msgs := st.msgs.filter (fun e => !(ackMatches uid ids e)) },
        .ok (st.msgs.filter (ackMatches uid ids)).length) := by
  unfold handleAck
  rw [if_neg (by simp [hu, ht, hne]), hfind]

/-- Claim C6: an authenticated `acknowledge(recipientUid,
clientMessageIds)` deletes the matching pending entries and returns the
count purged; ids with no matching entry are a no-op rather than an
error (count 0, ledger untouched when nothing matches); and after the
call no acknowledged id remains visible in `pendingFor(recipientUid)`. -/
theorem ack_contract (st : ServerState) (uid token : String) (ids : List String) (u : User)
    (hu : uid ≠ "") (ht : token ≠ "") (hne : ids ≠ [])
    (hfind : st.users.find? (fun v => v.uid == uid && v.sessionToken == token) = some u) :
    (handleAck st uid token ids).2 = .ok (st.msgs.filter (ackMatches uid ids)).length ∧
    (handleAck st uid token ids).1.msgs = st.msgs.filter (fun e => !(ackMatches uid ids e)) ∧
    (∀ c ∈ ids, ∀ e ∈ pendingFor (handleAck st uid token ids).1 uid,
      e.clientMessageId ≠ c) ∧
    (st.msgs.filter (ackMatches uid ids) = [] →
      (handleAck st uid token ids).1.msgs = st.msgs ∧
      (handleAck st uid token ids).2 = .ok 0) := by
  have heq := handleAck_eq st uid token ids u hu ht hne hfind
  refine ⟨by rw [heq], by rw [heq], ?_, ?_⟩
  · intro c hcin e hepf
    rw [mem_pendingFor, heq] at hepf
    obtain ⟨hemem, hrec, _⟩ := hepf
    have hpred := (List.mem_filter.mp hemem).2
    simp only [ackMatches, hrec, Bool.not_eq_eq_eq_not, Bool.not_true, Bool.and_eq_false_imp,
      beq_self_eq_true, decide_eq_false_iff_not, forall_const] at hpred
    exact fun hcc => hpred (hcc ▸ hcin)
  · intro hnil
    have hall := List.filter_eq_nil_iff.mp hnil
    refine ⟨?_, by rw [heq, hnil]; rfl⟩
    rw [heq]
    refine List.filter_eq_self.mpr ?_
    intro a ha
    simpa using hall a ha

/-- Witness for `ack_contract`: acknowledging the pending `"m1"` together
with a non-existent id `"ghost"` purges one entry, does not fail, and
empties bob's pending queue. -/
theorem ack_contract_witness :
    (handleAck stPending "bob" "tokB" ["m1", "ghost"]).2 = .ok 1 ∧
    msgA1 ∉ (handleAck stPending "bob" "tokB" ["m1", "ghost"]).1.msgs ∧
    pendingFor (handleAck stPending "bob" "tokB" ["m1", "ghost"]).1 "bob" = [] := by
  have h := ack_contract stPending "bob" "tokB" ["m1", "ghost"] userBob
    (by decide) (by decide) (by decide) (by decide)
  refine ⟨?_, ?_, ?_⟩
  · rw [h.1]; decide
  · rw [h.2.1]; decide
  · decide

/-- A list sorted by `serverTimestamp` that is a permutation of three
envelopes with strictly ascending timestamps is exactly that triple. -/
theorem sorted_triple_eq (l : List Msg) (e1 e2 e3 : Msg)
    (hp : l.Perm [e1, e2, e3]) (hsort : l.Sorted tsLe)
    (h12 : e1.serverTimestamp < e2.serverTimestamp)
    (h23 : e2.serverTimestamp < e3.serverTimestamp) :
    l = [e1, e2, e3] := by
  have hmap : (l.map Msg.serverTimestamp).Perm
      [e1.serverTimestamp, e2.serverTimestamp, e3.serverTimestamp] := by
    simpa using hp.map Msg.serverTimestamp
  have hms : (l.map Msg.serverTimestamp).Sorted (· ≤ ·) :=
    List.Pairwise.map Msg.serverTimestamp (fun a b (h : tsLe a b) => h) hsort
  have hts : List.Sorted (· ≤ ·)
      [e1.serverTimestamp, e2.serverTimestamp, e3.serverTimestamp] := by
    refine List.sorted_cons.mpr ⟨fun b hb => ?_,
      List.sorted_cons.mpr ⟨fun b hb => ?_, List.sorted_singleton _⟩⟩
    · simp only [List.mem_cons, List.mem_singleton, List.not_mem_nil, or_false] at hb
      rcases hb with rfl | rfl <;> omega
    · simp only [List.mem_singleton] at hb
      subst hb
      omega
  have heq := List.eq_of_perm_of_sorted hmap hms hts
  obtain ⟨a, b, c, rfl⟩ := List.length_eq_three.mp (by simpa using hp.length_eq)
  simp only [List.map_cons, List.map_nil, List.cons.injEq, and_true] at heq
  obtain ⟨ha, hb, hc⟩ := heq
  have hae : a = e1 := by
    have hamem : a ∈ [e1, e2, e3] := hp.subset (by simp)
    simp only [List.mem_cons, List.mem_singleton, List.not_mem_nil, or_false] at hamem
    rcases hamem with h | h | h
    · exact h
    · exact absurd (h ▸ ha) (by omega)
    · exact absurd (h ▸ ha) (by omega)
  subst hae
  have hp2 : [b, c].Perm [e2, e3] := hp.cons_inv
  have hbe : b = e2 := by
    have hbmem : b ∈ [e2, e3] := hp2.subset (by simp)
    simp only [List.mem_cons, List.mem_singleton, List.not_mem_nil, or_false] at hbmem
    rcases hbmem with h | h
    · exact h
    · exact absurd (h ▸ hb) (by omega)
  subst hbe
  have hce : c = e3 := by
    have := List.perm_singleton.mp hp2.cons_inv
    simpa using this
  subst hce
  rfl

/-- Claim C7: when the pending documents for a recipient are exactly
three envelopes with strictly ascending `serverTimestamp`s — whatever
order the interleaved insertions gave them in the collection —
`pendingFor` returns them ascending by `serverTimestamp`. -/
theorem pendingFor_ordered (st : ServerState) (r : String) (e1 e2 e3 : Msg)
    (hp : (pendingRaw st r).Perm [e1, e2, e3])
    (h12 : e1.serverTimestamp < e2.serverTimestamp)
    (h23 : e2.serverTimestamp < e3.serverTimestamp) :
    pendingFor st r = [e1, e2, e3] := by
  have hperm : (pendingFor st r).Perm [e1, e2, e3] :=
    (List.perm_insertionSort tsLe (pendingRaw st r)).trans hp
  have hsort : (pendingFor st r).Sorted tsLe :=
    List.sorted_insertionSort tsLe (pendingRaw st r)
  exact sorted_triple_eq (pendingFor st r) e1 e2 e3 hperm hsort h12 h23

/-- Witness for `pendingFor_ordered`: the three envelopes were inserted
in the order `t2, t3, t1`; the read returns `t1, t2, t3`. -/
theorem pendingFor_ordered_witness :
    pendingFor stThree "bob" = [msgT1, msgT2, msgT3] :=
  pendingFor_ordered stThree "bob" msgT1 msgT2 msgT3 (by decide) (by decide) (by decide)

/-- Every registered, open socket of the stored envelope's recipient
receives a fan-out push. -/
theorem mem_livePushEvents {st : ServerState} {stored : Msg} {s : Nat}
    (hmem : (s, stored.recipientUid) ∈ st.clients)
    (ho : connIsOpen st.conns s = true) :
    WsEvent.send s (.push stored) ∈ livePushEvents st stored := by
  unfold livePushEvents
  refine List.mem_map.mpr ⟨s, ?_, rfl⟩
  refine List.mem_filter.mpr ⟨?_, ho⟩
  exact List.mem_map.mpr ⟨(s, stored.recipientUid), List.mem_filter.mpr ⟨hmem, by simp⟩, rfl⟩

/-- Claim C9: with bob registered on two distinct live sockets, a
successful send addressed to bob is pushed to both sockets; and the
close of one socket removes exactly that socket's registry entry,
leaving the other socket's registration — and hence its future fan-out
pushes — untouched. -/
theorem multi_session_fanout (st : ServerState) (sid : Nat) (m : InMsg) (now : Nat)
    (u : String) (s1 s2 : Nat)
    (hc : connUidAt st.conns sid = some u)
    (hm : malformedPayload m = false)
    (hs : m.senderUid = some u)
    (hd : hasDupKey st.msgs u (m.clientMessageId.getD "") = false)
    (h1 : (s1, (storedOfInMsg u m now).recipientUid) ∈ st.clients)
    (h2 : (s2, (storedOfInMsg u m now).recipientUid) ∈ st.clients)
    (ho1 : connIsOpen st.conns s1 = true)
    (ho2 : connIsOpen st.conns s2 = true)
    (hne : s1 ≠ s2)
    (hclose : connUidAt st.conns s1 = some (storedOfInMsg u m now).recipientUid) :
    WsEvent.send s1 (.push (storedOfInMsg u m now)) ∈ (handleWsMessage st sid m now).2 ∧
    WsEvent.send s2 (.push (storedOfInMsg u m now)) ∈ (handleWsMessage st sid m now).2 ∧
    (s2, (storedOfInMsg u m now).recipientUid) ∈ (handleClose st s1).clients ∧
    (s1, (storedOfInMsg u m now).recipientUid) ∉ (handleClose st s1).clients := by
  rw [handleWsMessage_fresh st sid m now u hc hm hs hd]
  refine ⟨mem_livePushEvents h1 ho1, mem_livePushEvents h2 ho2, ?_, ?_⟩
  · unfold handleClose
    rw [hclose]
    refine List.mem_filter.mpr ⟨h2, ?_⟩
    simp [Ne.symm hne]
  · unfold handleClose
    rw [hclose]
    intro hmem
    have := (List.mem_filter.mp hmem).2
    simp at this

/-- Witness for `multi_session_fanout`: bob's sockets 10 and 11 both
receive the push of alice's envelope; closing socket 10 keeps socket 11
registered. -/
theorem multi_session_fanout_witness :
    WsEvent.send 10 (.push (storedOfInMsg "alice" inMsgA1 1000)) ∈
      (handleWsMessage stTwo 1 inMsgA1 1000).2 ∧
    WsEvent.send 11 (.push (storedOfInMsg "alice" inMsgA1 1000)) ∈
      (handleWsMessage stTwo 1 inMsgA1 1000).2 ∧
    (11, (storedOfInMsg "alice" inMsgA1 1000).recipientUid) ∈ (handleClose stTwo 10).clients ∧
    (10, (storedOfInMsg "alice" inMsgA1 1000).recipientUid) ∉ (handleClose stTwo 10).clients :=
  multi_session_fanout stTwo 1 inMsgA1 1000 "alice" 10 11
    (by decide) (by decide) (by decide) (by decide) (by decide) (by decide)
    (by decide) (by decide) (by decide) (by decide)

/-- Claim C10: the acknowledgement filter matches on
`(recipientUid, clientMessageId)` only — every ledger document addressed
to the acknowledging recipient whose id is in the batch is deleted,
whatever its `senderUid` and `status`; and since the unique index key is
scoped per sender, envelopes from different senders may share a
`clientMessageId`, so one acknowledged id can delete several envelopes. -/
theorem ack_ignores_sender_and_status (st : ServerState) (uid token : String)
    (ids : List String) (u : User)
    (hu : uid ≠ "") (ht : token ≠ "") (hne : ids ≠ [])
    (hfind : st.users.find? (fun v => v.uid == uid && v.sessionToken == token) = some u) :
    (∀ e, e ∈ st.msgs → e.recipientUid = uid → e.clientMessageId ∈ ids →
      e ∉ (handleAck st uid token ids).1.msgs) ∧
    (handleAck st uid token ids).2 = .ok (st.msgs.filter (ackMatches uid ids)).length ∧
    (∀ a b : Msg, a.senderUid ≠ b.senderUid →
      hasDupKey [a] b.senderUid b.clientMessageId = false) := by
  have heq := handleAck_eq st uid token ids u hu ht hne hfind
  refine ⟨?_, by rw [heq], ?_⟩
  · intro e _ hrec hid hmem
    rw [heq] at hmem
    have hpred := (List.mem_filter.mp hmem).2
    simp [ackMatches, hrec, hid] at hpred
  · intro a b hab
    simp [hasDupKey, hab]

/-- Witness for `ack_ignores_sender_and_status`: one acknowledgement of
`"m1"` by bob deletes both the envelope from alice and the one from
carol — which coexisted because the unique key is per sender — and
reports two purged. -/
theorem ack_ignores_sender_and_status_witness :
    msgA1 ∉ (handleAck stTwoSenders "bob" "tokB" ["m1"]).1.msgs ∧
    msgC1 ∉ (handleAck stTwoSenders "bob" "tokB" ["m1"]).1.msgs ∧
    (handleAck stTwoSenders "bob" "tokB" ["m1"]).2 = .ok 2 ∧
    hasDupKey [msgA1] msgC1.senderUid msgC1.clientMessageId = false := by
  have h := ack_ignores_sender_and_status stTwoSenders "bob" "tokB" ["m1"] userBob
    (by decide) (by decide) (by decide) (by decide)
  refine ⟨h.1 msgA1 (by decide) (by decide) (by decide),
    h.1 msgC1 (by decide) (by decide) (by decide), ?_, h.2.2 msgA1 msgC1 (by decide)⟩
  rw [h.2.1]
  decide

end SecureComm
